import Mathlib

/-!
Shallow embedding of the core logic of `streamlit_cotistas.py`:
CSV loading with schema enforcement (`carregar_csv`), shareholder totals
(`total_cotas`), monthly cost allocation (`resumo_rateio`), the
upsert-by-CPF handler, the cost-filter block and the bulk-removal handler.

Tables are lists of rows; money values are `Rat` (exact arithmetic stands
in for Python floats); the cost ledger's date column is a tagged value
(`DataField`) so that the raw CSV string and the value produced by
`pd.to_datetime(..., errors="coerce")` are distinguishable, as they are in
pandas (object dtype vs datetime64, with `NaT` for unparseable entries).
The date parser itself (`pd.to_datetime` on a single string) is treated as
an external function and passed as a parameter `p : String → Option Date`.
-/

namespace Cotistas

/-- A calendar date, as produced by `pd.to_datetime`. -/
structure Date where
  year : Int
  month : Nat
  day : Nat
deriving DecidableEq, Repr

/-- The value held in the cost ledger's `Data` column: either the raw CSV
string, or the result of `pd.to_datetime(..., errors="coerce")`
(`none` models `NaT`). -/
inductive DataField where
  | raw (s : String)
  | parsed (d : Option Date)
deriving DecidableEq, Repr

/-- One row of the shareholder table: `Nome`, `CPF`, `Cotas`,
`Valor por Cota`. -/
structure Cotista where
  nome : String
  cpf : String
  cotas : Int
  valorPorCota : Rat
deriving DecidableEq, Repr

/-- One row of the cost ledger: `Data`, `Centro`, `Descricao`, `Valor`.
`Centro` and `Descricao` are `Option` because a loaded CSV may hold nulls
in those columns (missing-column backfill or empty cells). -/
structure Custo where
  data : DataField
  centro : Option String
  descricao : Option String
  valor : Rat
deriving DecidableEq, Repr

/-- One row of the allocation table `df_rateio`: the shareholder columns
plus `Valor a Pagar`. -/
structure RateioRow where
  nome : String
  cpf : String
  cotas : Int
  valorPorCota : Rat
  valorAPagar : Rat
deriving DecidableEq, Repr

/-- The value returned by `resumo_rateio`, together with the post-state of
the two argument tables (`df_cus["Data"] = pd.to_datetime(...)` on line 40
mutates the caller's cost table in place; `df_cot` is only read and
copied). -/
structure ResumoResult where
  dfCot : List Cotista
  dfCus : List Custo
  dfRateio : List RateioRow
  total : Rat
  vCota : Rat
deriving DecidableEq, Repr

/-- `pd.to_datetime(x, errors="coerce")` applied to one cell: a raw string
goes through the parser `p` (`none` = `NaT`), an already-converted value is
unchanged. -/
def convertData (p : String → Option Date) (c : Custo) : Custo :=
  { c with data := DataField.parsed (match c.data with
      | DataField.raw s => p s
      | DataField.parsed d => d) }

/-- `total_cotas`: `int(df["Cotas"].sum()) if not df.empty else 0`.
With integer share counts the `int(...)` cast is the identity. -/
def total_cotas (df : List Cotista) : Int :=
  if df.isEmpty then 0 else (df.map (fun r => r.cotas)).sum

/-- The period filter of line 41:
`(df_cus["Data"].dt.month == mes) & (df_cus["Data"].dt.year == ano)`.
A `NaT` date yields `False` on both comparisons, so it never matches. -/
def mesAnoMatch (mes : Nat) (ano : Int) (c : Custo) : Bool :=
  match c.data with
  | DataField.parsed (some d) => d.month == mes && d.year == ano
  | _ => false

/-- `resumo_rateio(df_cot, df_cus, mes, ano)` (lines 37-47). Returns the
post-state of both tables together with `(df_rateio, total, v_cota)`. -/
def resumo_rateio (p : String → Option Date) (dfCot : List Cotista)
    (dfCus : List Custo) (mes : Nat) (ano : Int) : ResumoResult :=
  if dfCus.isEmpty || dfCot.isEmpty then ⟨dfCot, dfCus, [], 0, 0⟩
  else
    let dfCus2 := dfCus.map (convertData p)
    let dfMes := dfCus2.filter (mesAnoMatch mes ano)
    let total := (dfMes.map (fun c => c.valor)).sum
    let vCota := if total_cotas dfCot ≠ 0
      then total / ((total_cotas dfCot : Int) : Rat) else 0
    let dfRateio := dfCot.map (fun r =>
      ⟨r.nome, r.cpf, r.cotas, r.valorPorCota, (r.cotas : Rat) * vCota⟩)
    ⟨dfCot, dfCus2, dfRateio, total, vCota⟩

/-- The upsert handler of lines 80-84: drop every row with the given CPF,
then append the new record. -/
def upsert (df : List Cotista) (r : Cotista) : List Cotista :=
  df.filter (fun x => x.cpf != r.cpf) ++ [r]

/-- Case-insensitive literal substring test. This is NOT the general
behaviour of `str.contains(pat, case=False)` — pandas compiles `pat` as a
regular expression — but it is the matcher that `re.search` with
`re.IGNORECASE` denotes for patterns free of regex metacharacters; it is
used below only to instantiate the abstract regex engine in witnesses. -/
def containsCI (hay pat : String) : Bool :=
  decide (pat.toLower.toList <:+: hay.toLower.toList)

/-- `df[mask]` where `mask = df["Descricao"].str.contains(pat, case=False)`
(line 162), given the matcher `m` of the already-compiled pattern.
`str.contains` yields `NaN` for a null cell; boolean indexing with a mask
containing `NaN` raises `ValueError`, modelled as `none`. -/
def maskDescricao (m : String → Bool) (df : List Custo) : Option (List Custo) :=
  if df.all (fun c => c.descricao.isSome) then
    some (df.filter (fun c => match c.descricao with
      | some s => m s
      | none => false))
  else none

/-- Line 164: `df_filtrado[df_filtrado["Data"].dt.date == data_filter]`,
skipped when `data_filter` is unset (`None` is falsy). A `NaT` date
compares unequal to any set date. -/
def dataFilter (dataF : Option Date) (l : List Custo) : List Custo :=
  match dataF with
  | some dt => l.filter (fun c => match c.data with
      | DataField.parsed (some d) => d == dt
      | _ => false)
  | none => l

/-- The cost-filter block of lines 158-166: copy the ledger, coerce the
`Data` column to datetime, then apply up to three predicates.
`descF = ""` (falsy), `dataF = none` and `centroF = "Todos"` each skip
their filter. `str.contains` treats the pattern as a regular expression
(default `regex=True`) compiled with `re.IGNORECASE` (`case=False`); like
the date parser `p`, that engine is external and passed in as
`rx : String → Option (String → Bool)` — `rx pat = none` models the
`re.error` raised by an invalid pattern, `rx pat = some m` the compiled
pattern whose `m s` is the success of `re.search` on `s`. Compilation
happens inside `str.contains` before the mask exists, so `re.error`
precedes the `NaN`-mask `ValueError`; either fault is the result `none`. -/
def filtrarCustos (rx : String → Option (String → Bool))
    (p : String → Option Date) (df : List Custo)
    (descF : String) (dataF : Option Date) (centroF : String) :
    Option (List Custo) :=
  (if descF ≠ "" then
     match rx descF with
     | none => none
     | some m => maskDescricao m (df.map (convertData p))
   else some (df.map (convertData p))).map (fun d1 =>
    if centroF ≠ "Todos"
      then (dataFilter dataF d1).filter (fun c => c.centro == some centroF)
      else dataFilter dataF d1)

/-- Lines 186-187: left merge on all columns with `indicator=True`, keeping
the `left_only` rows — i.e. keep exactly the ledger rows that equal (on all
columns) no row of the selected subset. -/
def removeMatching (df sel : List Custo) : List Custo :=
  df.filter (fun r => decide (r ∉ sel))

/-- The `Remover Selecionados` handler (lines 182-190): an empty selection
shows the `st.info` no-op notice (`true` flag) and leaves the ledger
unchanged; otherwise the matching rows are removed (`false` flag). -/
def removerSelecionados (df sel : List Custo) : List Custo × Bool :=
  if sel.isEmpty then (df, true) else (removeMatching df sel, false)

/-- A parsed tabular file, column-oriented: column names with their cell
lists (`none` = null cell). Cell payloads are opaque (`V`). -/
abbrev PTable (V : Type) := List (String × List (Option V))

/-- What `pd.read_csv(path)` can encounter: no file at `path`, a file that
raises on parsing, or a parsed table. -/
inductive CsvFile (V : Type) where
  | missing
  | corrupt
  | ok (t : PTable V)

/-- `pd.DataFrame(columns=cols)`: the empty table with the given schema. -/
def emptyTable (V : Type) (cols : List String) : PTable V :=
  cols.map (fun c => (c, []))

/-- The column names of a table, in order (`df.columns`). -/
def colNames {V : Type} (t : PTable V) : List String :=
  t.map Prod.fst

/-- `len(df)`: all columns of a well-formed table have this length. -/
def nRows {V : Type} (t : PTable V) : Nat :=
  match t with
  | [] => 0
  | c :: _ => c.2.length

/-- `df[name]` for a single column: the first column with that name
(empty list if absent). -/
def lookupCol {V : Type} (t : PTable V) (name : String) : List (Option V) :=
  ((t.find? (fun col => col.1 == name)).map Prod.snd).getD []

/-- The loop of lines 23-25: for each required column absent from the
frame, add it at the end filled with `pd.NA`. -/
def addMissing {V : Type} (n : Nat) (t : PTable V) (cols : List String) :
    PTable V :=
  cols.foldl (fun acc c =>
    if (colNames acc).contains c then acc
    else acc ++ [(c, List.replicate n (none : Option V))]) t

/-- `carregar_csv(path, cols)` (lines 19-29). The Boolean is whether the
`st.warning` fallback fired (parse failure). Missing file and parse
failure both return the empty table with schema `cols`; a parsed table is
backfilled and projected to exactly `cols`, in that order. -/
def carregar_csv {V : Type} (file : CsvFile V) (cols : List String) :
    PTable V × Bool :=
  match file with
  | CsvFile.missing => (emptyTable V cols, false)
  | CsvFile.corrupt => (emptyTable V cols, true)
  | CsvFile.ok t =>
    let t1 := addMissing (nRows t) t cols
    (cols.map (fun c => (c, lookupCol t1 c)), false)

/-- The `total` computed by `resumo_rateio` in its main branch: sum of
`Valor` over the period's rows of the date-converted ledger. -/
def totalPeriodo (p : String → Option Date) (dfCus : List Custo)
    (mes : Nat) (ano : Int) : Rat :=
  (((dfCus.map (convertData p)).filter (mesAnoMatch mes ano)).map
    (fun c => c.valor)).sum

/-- The `v_cota` computed by `resumo_rateio` in its main branch. -/
def vCotaDe (p : String → Option Date) (dfCot : List Cotista)
    (dfCus : List Custo) (mes : Nat) (ano : Int) : Rat :=
  if total_cotas dfCot ≠ 0
    then totalPeriodo p dfCus mes ano / ((total_cotas dfCot : Int) : Rat)
    else 0

theorem resumo_rateio_empty (p : String → Option Date)
    (dfCot : List Cotista) (dfCus : List Custo) (mes : Nat) (ano : Int)
    (h : (dfCus.isEmpty || dfCot.isEmpty) = true) :
    resumo_rateio p dfCot dfCus mes ano = ⟨dfCot, dfCus, [], 0, 0⟩ := by
  simp [resumo_rateio, h]

theorem resumo_rateio_nonempty (p : String → Option Date)
    (dfCot : List Cotista) (dfCus : List Custo) (mes : Nat) (ano : Int)
    (h : (dfCus.isEmpty || dfCot.isEmpty) = false) :
    resumo_rateio p dfCot dfCus mes ano =
      ⟨dfCot, dfCus.map (convertData p),
       dfCot.map (fun r => ⟨r.nome, r.cpf, r.cotas, r.valorPorCota,
         (r.cotas : Rat) * vCotaDe p dfCot dfCus mes ano⟩),
       totalPeriodo p dfCus mes ano,
       vCotaDe p dfCot dfCus mes ano⟩ := by
  unfold resumo_rateio vCotaDe totalPeriodo
  rw [if_neg (by simp [h])]

/-! Concrete fixtures (the scenario of spec §8: Ana with 10 shares, Bruno
with 20, March 2024 costs totalling 300). -/

def ana : Cotista := ⟨"Ana", "111", 10, 1000⟩

def bruno : Cotista := ⟨"Bruno", "222", 20, 1000⟩

def custoMar : Custo := ⟨DataField.raw "2024-03-05", some "Sal", some "compra de sal", 300⟩

def p0 : String → Option Date :=
  fun s => if s = "2024-03-05" then some ⟨2024, 3, 5⟩ else none

/-- C7: if either input table is empty, `resumo_rateio` returns an empty
allocation with `total = 0` and `v_cota = 0`, touching neither table and
attempting neither the date filter nor the division. -/
theorem c7_empty_early_exit (p : String → Option Date) (dfCot : List Cotista)
    (dfCus : List Custo) (mes : Nat) (ano : Int)
    (h : dfCus = [] ∨ dfCot = []) :
    resumo_rateio p dfCot dfCus mes ano = ⟨dfCot, dfCus, [], 0, 0⟩ := by
  have hb : (dfCus.isEmpty || dfCot.isEmpty) = true := by
    rcases h with h | h <;> simp [h]
  simp [resumo_rateio, hb]

/-- Witness for C7: an empty shareholder table with a nonempty cost ledger
yields the empty allocation with totals 0, without fault. -/
theorem c7_empty_early_exit_witness :
    ((custoMar :: []) = ([] : List Custo) ∨ ([] : List Cotista) = []) ∧
    resumo_rateio p0 [] [custoMar] 3 2024 = ⟨[], [custoMar], [], 0, 0⟩ :=
  ⟨Or.inr rfl, c7_empty_early_exit p0 [] [custoMar] 3 2024 (Or.inr rfl)⟩

/-- C1: `v_cota` equals `total / total_cotas` whenever `total_cotas > 0`
(in the early-exit case both sides are 0), and equals 0 when
`total_cotas = 0` — the division is explicitly guarded. -/
theorem c1_per_share_value (p : String → Option Date) (dfCot : List Cotista)
    (dfCus : List Custo) (mes : Nat) (ano : Int) :
    (0 < total_cotas dfCot →
      (resumo_rateio p dfCot dfCus mes ano).vCota =
        (resumo_rateio p dfCot dfCus mes ano).total /
          ((total_cotas dfCot : Int) : Rat)) ∧
    (total_cotas dfCot = 0 →
      (resumo_rateio p dfCot dfCus mes ano).vCota = 0) := by
  unfold resumo_rateio
  split
  · exact ⟨fun _ => by simp, fun _ => rfl⟩
  · by_cases h : total_cotas dfCot = 0
    · refine ⟨fun hpos => absurd h (by omega), fun _ => by simp [h]⟩
    · refine ⟨fun _ => by simp [h], fun h0 => absurd h0 h⟩

/-- Witness for C1: for Ana (10 shares) and Bruno (20 shares) with March
2024 costs of 300, `total_cotas > 0` and `v_cota = total / 30`. -/
theorem c1_per_share_value_witness :
    0 < total_cotas [ana, bruno] ∧
    (resumo_rateio p0 [ana, bruno] [custoMar] 3 2024).vCota =
      (resumo_rateio p0 [ana, bruno] [custoMar] 3 2024).total /
        ((total_cotas [ana, bruno] : Int) : Rat) :=
  ⟨by decide,
   (c1_per_share_value p0 [ana, bruno] [custoMar] 3 2024).1 (by decide)⟩

/-- C2: when the shareholder table is nonempty and `total_cotas > 0`, the
owed amounts of the allocation table sum exactly (in `Rat`) to the period's
total costs. -/
theorem c2_sum_owed_eq_total (p : String → Option Date)
    (dfCot : List Cotista) (dfCus : List Custo) (mes : Nat) (ano : Int)
    (h1 : dfCot ≠ []) (h2 : 0 < total_cotas dfCot) :
    ((resumo_rateio p dfCot dfCus mes ano).dfRateio.map
      (fun r => r.valorAPagar)).sum =
      (resumo_rateio p dfCot dfCus mes ano).total := by
  have hne : total_cotas dfCot ≠ 0 := by omega
  have hcast : ((total_cotas dfCot : Int) : Rat) ≠ 0 :=
    Int.cast_ne_zero.mpr hne
  by_cases hc : (dfCus.isEmpty || dfCot.isEmpty) = true
  · rw [resumo_rateio_empty p dfCot dfCus mes ano hc]
    have hcus : dfCus = [] := by
      rcases Bool.or_eq_true_iff.mp hc with h | h
      · exact List.isEmpty_iff.mp h
      · exact absurd (List.isEmpty_iff.mp h) h1
    simp [hcus, totalPeriodo]
  · rw [resumo_rateio_nonempty p dfCot dfCus mes ano
      (Bool.not_eq_true _ ▸ hc)]
    simp only [List.map_map, Function.comp_def]
    rw [List.sum_map_mul_right]
    have hsum : (dfCot.map (fun r => ((r.cotas : Int) : Rat))).sum =
        ((total_cotas dfCot : Int) : Rat) := by
      unfold total_cotas
      rw [if_neg (by simpa using h1)]
      rw [Int.cast_list_sum, List.map_map]
      rfl
    rw [hsum]
    unfold vCotaDe
    rw [if_pos hne, mul_comm, div_mul_cancel₀ _ hcast]

/-- Witness for C2: Ana (10 shares) owes 100 and Bruno (20 shares) owes
200 against March 2024 costs of 300; the owed amounts sum to the total. -/
theorem c2_sum_owed_eq_total_witness :
    ([ana, bruno] ≠ ([] : List Cotista)) ∧ 0 < total_cotas [ana, bruno] ∧
    ((resumo_rateio p0 [ana, bruno] [custoMar] 3 2024).dfRateio.map
      (fun r => r.valorAPagar)).sum =
      (resumo_rateio p0 [ana, bruno] [custoMar] 3 2024).total :=
  ⟨by decide, by decide,
   c2_sum_owed_eq_total p0 [ana, bruno] [custoMar] 3 2024
     (by decide) (by decide)⟩

/-- C3: `upsert` keeps, in order, exactly the rows whose CPF differs from
the record's, appends the record at the end, leaves exactly one row with
the record's CPF (namely the record itself), and is idempotent — so
upserting the same record twice yields one row for that CPF. -/
theorem c3_upsert_contract (df : List Cotista) (r : Cotista) :
    ((upsert df r).filter (fun x => x.cpf == r.cpf) = [r]) ∧
    ((upsert df r).filter (fun x => x.cpf != r.cpf) =
      df.filter (fun x => x.cpf != r.cpf)) ∧
    ((upsert df r).getLast? = some r) ∧
    (upsert (upsert df r) r = upsert df r) ∧
    ((upsert df r).countP (fun x => x.cpf == r.cpf) = 1) := by
  have hq : ∀ a : Cotista, (a.cpf != r.cpf) = true → (a.cpf == r.cpf) = false := by
    intro a ha
    simpa [bne] using ha
  have hnil : (df.filter (fun x => x.cpf != r.cpf)).filter
      (fun x => x.cpf == r.cpf) = [] := by
    apply List.filter_eq_nil_iff.mpr
    intro a ha
    have := hq a (List.mem_filter.mp ha).2
    simp [this]
  refine ⟨?_, ?_, ?_, ?_, ?_⟩
  · unfold upsert
    rw [List.filter_append, hnil]
    simp
  · unfold upsert
    rw [List.filter_append, List.filter_filter]
    simp
  · exact List.getLast?_concat _
  · show (upsert df r).filter (fun x => x.cpf != r.cpf) ++ [r] = upsert df r
    unfold upsert
    rw [List.filter_append, List.filter_filter]
    simp
  · unfold upsert
    rw [List.countP_append]
    have h0 : (df.filter (fun x => x.cpf != r.cpf)).countP
        (fun x => x.cpf == r.cpf) = 0 := by
      rw [List.countP_eq_length_filter, hnil]
      rfl
    rw [h0]
    simp

def custoAbr : Custo := ⟨DataField.raw "2024-04-01", some "Peão", some "diária", 50⟩

/-- C5: the bulk-removal handler removes exactly the ledger rows that
fully equal some selected row (membership, multiplicity and order all
behave as row-equality removal), and an empty selection is a no-op that
shows the notice instead of silently applying the removal. -/
theorem c5_remove_matching (df sel : List Custo) :
    (∀ r : Custo, r ∈ removeMatching df sel ↔ r ∈ df ∧ r ∉ sel) ∧
    ((removeMatching df sel).Sublist df) ∧
    (∀ r ∈ sel, (removeMatching df sel).count r = 0) ∧
    (∀ r : Custo, r ∉ sel →
      (removeMatching df sel).count r = df.count r) ∧
    (sel = [] → removerSelecionados df sel = (df, true)) ∧
    (sel ≠ [] → removerSelecionados df sel = (removeMatching df sel, false)) := by
  refine ⟨?_, List.filter_sublist df, ?_, ?_, ?_, ?_⟩
  · intro r
    unfold removeMatching
    rw [List.mem_filter]
    simp
  · intro r hr
    apply List.count_eq_zero.mpr
    intro hmem
    have := (List.mem_filter.mp hmem).2
    simp at this
    exact this hr
  · intro r hr
    unfold removeMatching
    exact List.count_filter (by simpa using hr)
  · intro h
    simp [removerSelecionados, h]
  · intro h
    simp [removerSelecionados, h]

/-- Witness for C5: removing a selection containing the April entry keeps
the March entry, and a nonempty selection does not show the notice. -/
theorem c5_remove_matching_witness :
    (([custoAbr] : List Custo) ≠ []) ∧
    removerSelecionados [custoMar, custoAbr] [custoAbr] =
      (removeMatching [custoMar, custoAbr] [custoAbr], false) :=
  ⟨by decide,
   (c5_remove_matching [custoMar, custoAbr] [custoAbr]).2.2.2.2.2 (by decide)⟩

/-- C10: with both tables nonempty, the allocation table has exactly one
row per shareholder row (same names, CPFs and share counts, in order);
when no cost entry falls in the requested period every owed amount is 0
and the allocation table is still nonempty. -/
theorem c10_row_per_shareholder (p : String → Option Date)
    (dfCot : List Cotista) (dfCus : List Custo) (mes : Nat) (ano : Int)
    (h1 : dfCot ≠ []) (h2 : dfCus ≠ []) :
    ((resumo_rateio p dfCot dfCus mes ano).dfRateio.length = dfCot.length) ∧
    ((resumo_rateio p dfCot dfCus mes ano).dfRateio.map
        (fun x => (x.nome, x.cpf, x.cotas)) =
      dfCot.map (fun x => (x.nome, x.cpf, x.cotas))) ∧
    ((dfCus.map (convertData p)).filter (mesAnoMatch mes ano) = [] →
      (∀ x ∈ (resumo_rateio p dfCot dfCus mes ano).dfRateio,
        x.valorAPagar = 0) ∧
      (resumo_rateio p dfCot dfCus mes ano).dfRateio ≠ []) := by
  have hcond : (dfCus.isEmpty || dfCot.isEmpty) = false := by
    simp [List.isEmpty_iff, h1, h2]
  rw [resumo_rateio_nonempty p dfCot dfCus mes ano hcond]
  refine ⟨by simp, by simp [List.map_map], ?_⟩
  intro hfe
  have htot : totalPeriodo p dfCus mes ano = 0 := by
    unfold totalPeriodo
    rw [hfe]
    rfl
  have hv : vCotaDe p dfCot dfCus mes ano = 0 := by
    unfold vCotaDe
    rw [htot]
    split <;> simp
  constructor
  · intro x hx
    rcases List.mem_map.mp hx with ⟨r, _, hr⟩
    rw [← hr]
    simp [hv]
  · simp [h1]

/-- Witness for C10: Ana alone with a March 2024 ledger queried for
January 2024 gets exactly one allocation row, owing 0. -/
theorem c10_row_per_shareholder_witness :
    (([ana] : List Cotista) ≠ []) ∧ (([custoMar] : List Custo) ≠ []) ∧
    (resumo_rateio p0 [ana] [custoMar] 1 2024).dfRateio.length = 1 ∧
    (∀ x ∈ (resumo_rateio p0 [ana] [custoMar] 1 2024).dfRateio,
      x.valorAPagar = 0) :=
  ⟨by decide, by decide,
   (c10_row_per_shareholder p0 [ana] [custoMar] 1 2024
     (by decide) (by decide)).1,
   fun x hx =>
     ((c10_row_per_shareholder p0 [ana] [custoMar] 1 2024
       (by decide) (by decide)).2.2 (by decide)).1 x hx⟩

/-- The description predicate of line 162 as one per-row test, given the
matcher `m` of the successfully compiled pattern (`true` when the filter
is skipped because `descricao_filter` is empty). -/
def descPredM (descF : String) (m : String → Bool) (c : Custo) : Bool :=
  if descF = "" then true
  else match c.descricao with
    | some s => m s
    | none => false

/-- The exact-date predicate of line 164 (`true` when no date is set). -/
def dataPred (dataF : Option Date) (c : Custo) : Bool :=
  match dataF with
  | some dt => (match c.data with
      | DataField.parsed (some d) => d == dt
      | _ => false)
  | none => true

/-- The cost-center predicate of line 166 (`true` for the sentinel
`"Todos"`). -/
def centroPred (centroF : String) (c : Custo) : Bool :=
  if centroF = "Todos" then true else c.centro == some centroF

theorem convertData_descricao (p : String → Option Date) (c : Custo) :
    (convertData p c).descricao = c.descricao := rfl

theorem filtrarCustos_all_some (rx : String → Option (String → Bool))
    (p : String → Option Date) (df : List Custo) (descF : String)
    (dataF : Option Date) (centroF : String) (m : String → Bool)
    (hm : rx descF = some m) (h : ∀ c ∈ df, c.descricao.isSome) :
    filtrarCustos rx p df descF dataF centroF =
      some ((df.map (convertData p)).filter
        (fun c => descPredM descF m c && dataPred dataF c &&
          centroPred centroF c)) := by
  have h0 : ∀ c ∈ df.map (convertData p), c.descricao.isSome = true := by
    intro c hc
    rcases List.mem_map.mp hc with ⟨a, ha, rfl⟩
    rw [convertData_descricao]
    exact h a ha
  have hstep1 : (if descF ≠ "" then
      match rx descF with
      | none => none
      | some m2 => maskDescricao m2 (df.map (convertData p))
      else some (df.map (convertData p))) =
      some ((df.map (convertData p)).filter (descPredM descF m)) := by
    by_cases hd : descF = ""
    · rw [hd, if_neg (by simp)]
      congr 1
      symm
      apply List.filter_eq_self.mpr
      intro a _
      simp [descPredM]
    · rw [if_pos hd, hm]
      show maskDescricao m (df.map (convertData p)) = _
      unfold maskDescricao
      rw [if_pos (List.all_eq_true.mpr h0)]
      congr 1
      apply List.filter_congr
      intro c _
      simp [descPredM, hd]
  have hstep2 : ∀ l : List Custo,
      dataFilter dataF l = l.filter (dataPred dataF) := by
    intro l
    cases dataF with
    | none =>
      show l = l.filter (dataPred none)
      symm
      apply List.filter_eq_self.mpr
      intro a _
      rfl
    | some dt => rfl
  simp only [filtrarCustos]
  rw [hstep1, Option.map_some']
  rw [hstep2]
  have hstep3 : ∀ l : List Custo,
      (if centroF ≠ "Todos"
        then l.filter (fun c => c.centro == some centroF) else l) =
      l.filter (centroPred centroF) := by
    intro l
    by_cases hc : centroF = "Todos"
    · rw [hc, if_neg (by simp)]
      symm
      apply List.filter_eq_self.mpr
      intro a _
      simp [centroPred]
    · rw [if_pos hc]
      apply List.filter_congr
      intro c _
      simp [centroPred, hc]
  rw [hstep3]
  rw [List.filter_filter, List.filter_filter]
  congr 1
  apply List.filter_congr
  intro c _
  cases h1 : descPredM descF m c <;> cases h2 : dataPred dataF c <;>
    cases h3 : centroPred centroF c <;> simp [h1, h2, h3]

/-- A sample regex engine for concrete inputs: a metacharacter-free
pattern compiles to the case-insensitive substring matcher (its
`re.search`/`re.IGNORECASE` denotation), while the pattern `"("` stands
for an invalid regular expression and fails to compile, as `re.compile`
raises `re.error` on it. -/
def rx0 : String → Option (String → Bool) :=
  fun pat => if pat = "(" then none else some (fun s => containsCI s pat)

/-- The matcher that the pattern `"sal"` compiles to. -/
def salMatcher : String → Bool := fun s => containsCI s "sal"

def custoParsed : Custo :=
  ⟨DataField.parsed (some ⟨2024, 3, 5⟩), some "Sal", some "Compra de Sal", 300⟩

/-- C4 (amended): the three predicates combine as a logical AND over the
date-converted ledger, for whatever matcher the regex engine compiles the
description pattern to (`str.contains` treats the pattern as a
case-insensitively compiled regular expression, a substring match only
for metacharacter-free patterns); an empty description, an unset date and
the `"Todos"` sentinel each act as no filter; with no predicates the
result is the table with only its `Data` column coerced to datetime —
which is the unchanged table whenever the dates are already in converted
form. -/
theorem c4_filter_and_semantics (rx : String → Option (String → Bool))
    (p : String → Option Date) (df : List Custo) (descF : String)
    (dataF : Option Date) (centroF : String) :
    (filtrarCustos rx p df "" none "Todos" =
      some (df.map (convertData p))) ∧
    (∀ m : String → Bool, rx descF = some m →
      (∀ c ∈ df, c.descricao.isSome) →
      filtrarCustos rx p df descF dataF centroF =
        some ((df.map (convertData p)).filter
          (fun c => descPredM descF m c && dataPred dataF c &&
            centroPred centroF c))) ∧
    ((∀ c ∈ df, convertData p c = c) →
      filtrarCustos rx p df "" none "Todos" = some df) := by
  have hbase : filtrarCustos rx p df "" none "Todos" =
      some (df.map (convertData p)) := by
    simp [filtrarCustos, dataFilter]
  refine ⟨hbase,
    fun m hm => filtrarCustos_all_some rx p df descF dataF centroF m hm, ?_⟩
  intro h
  rw [hbase]
  congr 1
  calc df.map (convertData p) = df.map id := List.map_congr_left h
    _ = df := List.map_id df

/-- Witness for C4's amended theorem: on an all-non-null, already-converted
one-row ledger, the pattern `"sal"` compiles to the case-insensitive
substring matcher and the filtered result is the AND of the three
predicates. -/
theorem c4_filter_and_semantics_witness :
    rx0 "sal" = some salMatcher ∧
    (∀ c ∈ [custoParsed], (Custo.descricao c).isSome) ∧
    filtrarCustos rx0 p0 [custoParsed] "sal" none "Todos" =
      some (([custoParsed].map (convertData p0)).filter
        (fun c => descPredM "sal" salMatcher c && dataPred none c &&
          centroPred "Todos" c)) :=
  ⟨rfl, by decide,
   (c4_filter_and_semantics rx0 p0 [custoParsed] "sal" none
     "Todos").2.1 salMatcher rfl (by decide)⟩

/-- Counterexample to C4 as stated: with no predicates supplied, the
filter block does not return the table unchanged — the `Data` column has
been coerced from its raw string to a parsed datetime (line 159). -/
theorem c4_counterexample :
    filtrarCustos rx0 p0 [custoMar] "" none "Todos" ≠ some [custoMar] := by
  decide

/-- Counterexample to C8 as stated: `resumo_rateio` does not leave the cost
table unchanged — line 40 (`df_cus["Data"] = pd.to_datetime(...)`) assigns
the converted date column into the caller's table, so after the call the
raw string date has become a parsed datetime. -/
theorem c8_counterexample :
    (resumo_rateio p0 [ana] [custoMar] 3 2024).dfCus ≠ [custoMar] := by
  decide

/-- C8 (amended): `resumo_rateio` leaves the shareholder table unchanged
(it only copies it), but mutates the cost table in place: when both tables
are nonempty its `Data` column is replaced by the parsed dates, while the
other columns, the row order and the row count are unchanged; in the
early-exit case the cost table is untouched. -/
theorem c8_frame_amended (p : String → Option Date) (dfCot : List Cotista)
    (dfCus : List Custo) (mes : Nat) (ano : Int) :
    ((resumo_rateio p dfCot dfCus mes ano).dfCot = dfCot) ∧
    ((dfCus.isEmpty || dfCot.isEmpty) = true →
      (resumo_rateio p dfCot dfCus mes ano).dfCus = dfCus) ∧
    ((dfCus.isEmpty || dfCot.isEmpty) = false →
      (resumo_rateio p dfCot dfCus mes ano).dfCus =
        dfCus.map (convertData p)) ∧
    (∀ c : Custo, (convertData p c).centro = c.centro ∧
      (convertData p c).descricao = c.descricao ∧
      (convertData p c).valor = c.valor) ∧
    ((resumo_rateio p dfCot dfCus mes ano).dfCus.length = dfCus.length) := by
  refine ⟨?_, ?_, ?_, fun c => ⟨rfl, rfl, rfl⟩, ?_⟩
  · by_cases hc : (dfCus.isEmpty || dfCot.isEmpty) = true
    · rw [resumo_rateio_empty p dfCot dfCus mes ano hc]
    · rw [resumo_rateio_nonempty p dfCot dfCus mes ano
        (Bool.not_eq_true _ ▸ hc)]
  · intro hc
    rw [resumo_rateio_empty p dfCot dfCus mes ano hc]
  · intro hc
    rw [resumo_rateio_nonempty p dfCot dfCus mes ano hc]
  · by_cases hc : (dfCus.isEmpty || dfCot.isEmpty) = true
    · rw [resumo_rateio_empty p dfCot dfCus mes ano hc]
    · rw [resumo_rateio_nonempty p dfCot dfCus mes ano
        (Bool.not_eq_true _ ▸ hc)]
      simp

/-- Witness for C8's amended theorem: on nonempty tables the post-state of
the cost table is its date-converted image. -/
theorem c8_frame_amended_witness :
    (([custoMar].isEmpty || [ana].isEmpty) = false) ∧
    (resumo_rateio p0 [ana] [custoMar] 3 2024).dfCus =
      [custoMar].map (convertData p0) :=
  ⟨by decide, (c8_frame_amended p0 [ana] [custoMar] 3 2024).2.2.1 (by decide)⟩

def custoSemDesc : Custo := ⟨DataField.raw "2024-05-02", some "Sal", none, 10⟩

theorem maskDescricao_eq_none_iff (m : String → Bool) (l : List Custo) :
    maskDescricao m l = none ↔ ∃ c ∈ l, c.descricao = none := by
  unfold maskDescricao
  by_cases hall : l.all (fun c => c.descricao.isSome) = true
  · rw [if_pos hall]
    simp only [List.all_eq_true] at hall
    simp only [reduceCtorEq, false_iff]
    rintro ⟨c, hc, hnone⟩
    have := hall c hc
    rw [hnone] at this
    exact Bool.noConfusion this
  · rw [if_neg hall]
    simp only [List.all_eq_true, not_forall] at hall
    simp only [true_iff]
    rcases hall with ⟨c, hc, hns⟩
    refine ⟨c, hc, ?_⟩
    cases hdesc : c.descricao with
    | none => rfl
    | some s => rw [hdesc] at hns; simp at hns

theorem filtrarCustos_eq_none_iff (rx : String → Option (String → Bool))
    (p : String → Option Date) (df : List Custo) (descF : String)
    (dataF : Option Date) (centroF : String) :
    filtrarCustos rx p df descF dataF centroF = none ↔
      descF ≠ "" ∧ (rx descF = none ∨ ∃ c ∈ df, c.descricao = none) := by
  simp only [filtrarCustos, Option.map_eq_none']
  by_cases hd : descF = ""
  · simp [hd]
  · rw [if_pos hd]
    cases hrx : rx descF with
    | none => simp [hd]
    | some m =>
      rw [maskDescricao_eq_none_iff]
      constructor
      · rintro ⟨c, hc, hn⟩
        rcases List.mem_map.mp hc with ⟨a, ha, rfl⟩
        exact ⟨hd, Or.inr ⟨a, ha, by rwa [convertData_descricao] at hn⟩⟩
      · rintro ⟨-, hor⟩
        rcases hor with hbad | ⟨a, ha, hn⟩
        · exact Option.noConfusion hbad
        · exact ⟨convertData p a, List.mem_map_of_mem _ ha,
            by rwa [convertData_descricao]⟩

/-- C9 (amended): the core operations are total for the listed error
conditions — zero total shares yields a zero per-share value, an empty
removal selection is a surfaced no-op — except that the description
filter faults exactly when a description predicate is supplied and either
the pattern fails to compile as a regular expression (`re.error`) or the
description column contains a null (the pandas `NaN` boolean mask). -/
theorem c9_totality_amended (rx : String → Option (String → Bool))
    (p : String → Option Date) (df dfCus : List Custo)
    (dfCot : List Cotista) (descF : String) (dataF : Option Date)
    (centroF : String) (mes : Nat) (ano : Int) :
    (filtrarCustos rx p df descF dataF centroF = none ↔
      descF ≠ "" ∧ (rx descF = none ∨ ∃ c ∈ df, c.descricao = none)) ∧
    ((∀ c ∈ df, c.descricao ≠ none) → rx descF ≠ none →
      (filtrarCustos rx p df descF dataF centroF).isSome) ∧
    (total_cotas dfCot = 0 →
      (resumo_rateio p dfCot dfCus mes ano).vCota = 0) ∧
    (removerSelecionados df [] = (df, true)) := by
  refine ⟨filtrarCustos_eq_none_iff rx p df descF dataF centroF, ?_, ?_, ?_⟩
  · intro h hrx
    rw [Option.isSome_iff_ne_none]
    intro hnone
    rcases (filtrarCustos_eq_none_iff rx p df descF dataF centroF).mp hnone
      with ⟨-, hor⟩
    rcases hor with hbad | ⟨c, hc, hcn⟩
    · exact hrx hbad
    · exact h c hc hcn
  · intro h0
    by_cases hc : (dfCus.isEmpty || dfCot.isEmpty) = true
    · rw [resumo_rateio_empty p dfCot dfCus mes ano hc]
    · rw [resumo_rateio_nonempty p dfCot dfCus mes ano
        (Bool.not_eq_true _ ▸ hc)]
      show vCotaDe p dfCot dfCus mes ano = 0
      unfold vCotaDe
      rw [if_neg (by simp [h0])]
  · simp [removerSelecionados]

/-- Witness for C9's amended theorem: a ledger whose descriptions are all
non-null, filtered with a pattern that compiles, filters without fault,
and a zero-share registry allocates a zero per-share value without
fault. -/
theorem c9_totality_amended_witness :
    (∀ c ∈ [custoMar], c.descricao ≠ none) ∧ rx0 "sal" ≠ none ∧
    (filtrarCustos rx0 p0 [custoMar] "sal" none "Todos").isSome ∧
    total_cotas [] = 0 ∧
    (resumo_rateio p0 [] [custoMar] 3 2024).vCota = 0 :=
  ⟨by decide,
   fun h => Option.noConfusion
     ((show rx0 "sal" = some salMatcher from rfl) ▸ h),
   (c9_totality_amended rx0 p0 [custoMar] [custoMar] [] "sal" none "Todos"
     3 2024).2.1 (by decide)
     (fun h => Option.noConfusion
       ((show rx0 "sal" = some salMatcher from rfl) ▸ h)),
   by decide,
   (c9_totality_amended rx0 p0 [custoMar] [custoMar] [] "sal" none "Todos"
     3 2024).2.2.1 (by decide)⟩

/-- Counterexample to C9 as stated: filtering by description over a ledger
whose description column contains a null faults (the `NaN` mask raises in
pandas, modelled by `none`) instead of returning a table, even though the
pattern itself compiles. -/
theorem c9_counterexample :
    filtrarCustos rx0 p0 [custoSemDesc] "sal" none "Todos" = none := by
  decide

theorem lookupCol_append_left {V : Type} (t u : PTable V) (c : String)
    (h : c ∈ colNames t) :
    lookupCol (t ++ u) c = lookupCol t c := by
  unfold lookupCol
  rw [List.find?_append]
  have hs : (t.find? (fun col => col.1 == c)).isSome := by
    rw [List.find?_isSome]
    rcases List.mem_map.mp h with ⟨x, hx, rfl⟩
    exact ⟨x, hx, by simp⟩
  rcases Option.isSome_iff_exists.mp hs with ⟨x, hx⟩
  rw [hx]
  rfl

theorem lookupCol_append_right {V : Type} (t u : PTable V) (c : String)
    (h : c ∉ colNames t) :
    lookupCol (t ++ u) c = lookupCol u c := by
  unfold lookupCol
  rw [List.find?_append]
  have hnone : t.find? (fun col => col.1 == c) = none := by
    rw [List.find?_eq_none]
    intro x hx hb
    apply h
    have hx1 : x.1 = c := by simpa using hb
    rw [← hx1]
    exact List.mem_map_of_mem _ hx
  rw [hnone]
  rfl

theorem lookupCol_cons_of_ne {V : Type} (x : String × List (Option V))
    (t : PTable V) (c : String) (h : x.1 ≠ c) :
    lookupCol (x :: t) c = lookupCol t c := by
  unfold lookupCol
  rw [List.find?_cons_of_neg]
  simp [h]

theorem addMissing_present {V : Type} (n : Nat) (cs : List String)
    (c : String) : ∀ acc : PTable V, c ∈ colNames acc →
    lookupCol (addMissing n acc cs) c = lookupCol acc c ∧
      c ∈ colNames (addMissing n acc cs) := by
  induction cs with
  | nil => exact fun acc h => ⟨rfl, h⟩
  | cons a tl ih =>
    intro acc h
    rw [show addMissing n acc (a :: tl) =
      addMissing n (if (colNames acc).contains a then acc
        else acc ++ [(a, List.replicate n (none : Option V))]) tl from rfl]
    by_cases ha : (colNames acc).contains a = true
    · rw [if_pos ha]
      exact ih acc h
    · rw [if_neg ha]
      have h2 : c ∈ colNames (acc ++
          [(a, List.replicate n (none : Option V))]) := by
        unfold colNames at h ⊢
        rw [List.map_append]
        exact List.mem_append_left _ h
      have h3 := ih _ h2
      exact ⟨h3.1.trans (lookupCol_append_left _ _ _ h), h3.2⟩

theorem addMissing_absent {V : Type} (n : Nat) (cs : List String)
    (c : String) : ∀ acc : PTable V, c ∈ cs → c ∉ colNames acc →
    lookupCol (addMissing n acc cs) c = List.replicate n none := by
  induction cs with
  | nil => intro acc h; cases h
  | cons a tl ih =>
    intro acc hcs hacc
    show lookupCol (addMissing n (if (colNames acc).contains a then acc
      else acc ++ [(a, List.replicate n (none : Option V))]) tl) c = _
    by_cases hac : a = c
    · subst hac
      have hcontains : ¬((colNames acc).contains a = true) := by
        simpa using hacc
      rw [if_neg hcontains]
      have hmem : a ∈ colNames (acc ++
          [(a, List.replicate n (none : Option V))]) := by
        unfold colNames
        rw [List.map_append]
        simp
      rw [(addMissing_present n tl a _ hmem).1,
        lookupCol_append_right _ _ _ hacc]
      simp [lookupCol]
    · have hc' : c ∈ tl := by
        rcases List.mem_cons.mp hcs with h | h
        · exact absurd h.symm hac
        · exact h
      by_cases hca : (colNames acc).contains a = true
      · rw [if_pos hca]
        exact ih acc hc' hacc
      · rw [if_neg hca]
        apply ih _ hc'
        unfold colNames at hacc ⊢
        rw [List.map_append]
        intro hmem
        rcases List.mem_append.mp hmem with h | h
        · exact hacc h
        · simp at h
          exact hac h.symm

theorem lookupCol_projection {V : Type} (cols : List String)
    (g : String → List (Option V)) (c : String) (hc : c ∈ cols) :
    lookupCol (cols.map (fun n => (n, g n))) c = g c := by
  induction cols with
  | nil => cases hc
  | cons a tl ih =>
    by_cases hac : a = c
    · subst hac
      simp [lookupCol]
    · have hc' : c ∈ tl := by
        rcases List.mem_cons.mp hc with h | h
        · exact absurd h.symm hac
        · exact h
      rw [List.map_cons, lookupCol_cons_of_ne _ _ _ hac]
      exact ih hc'

theorem carregar_csv_colNames {V : Type} (file : CsvFile V)
    (cols : List String) :
    colNames (carregar_csv file cols).1 = cols := by
  cases file <;>
    simp [carregar_csv, emptyTable, colNames, List.map_map, Function.comp_def]

/-- C6: `carregar_csv` always returns a table whose columns are exactly
`requiredColumns`, in the caller's order: a missing file gives the empty
schema-conformant table, a parse failure gives the same plus the warning
flag (never failing the caller), and a parsed table keeps the values of
every present required column, backfills absent required columns with
nulls, and drops extra columns. -/
theorem c6_load_schema (V : Type) (file : CsvFile V) (cols : List String) :
    (colNames (carregar_csv file cols).1 = cols) ∧
    (carregar_csv (CsvFile.missing : CsvFile V) cols =
      (emptyTable V cols, false)) ∧
    (carregar_csv (CsvFile.corrupt : CsvFile V) cols =
      (emptyTable V cols, true)) ∧
    ((carregar_csv file cols).2 = true ↔ file = CsvFile.corrupt) ∧
    (∀ (t : PTable V) (c : String), file = CsvFile.ok t → c ∈ cols →
      (c ∈ colNames t →
        lookupCol (carregar_csv file cols).1 c = lookupCol t c) ∧
      (c ∉ colNames t →
        lookupCol (carregar_csv file cols).1 c =
          List.replicate (nRows t) none)) := by
  refine ⟨carregar_csv_colNames file cols, rfl, rfl, ?_, ?_⟩
  · cases file <;> simp [carregar_csv]
  · intro t c hf hc
    subst hf
    constructor
    · intro hmem
      show lookupCol (cols.map (fun n =>
        (n, lookupCol (addMissing (nRows t) t cols) n))) c = _
      rw [lookupCol_projection _ _ _ hc]
      exact (addMissing_present (nRows t) cols c t hmem).1
    · intro hmem
      show lookupCol (cols.map (fun n =>
        (n, lookupCol (addMissing (nRows t) t cols) n))) c = _
      rw [lookupCol_projection _ _ _ hc]
      exact addMissing_absent (nRows t) cols c t hc hmem

/-- Witness for C6: loading a parsed file with columns `Data` (present)
and `Extra` (to be dropped) against schema `["Data", "Valor"]` keeps the
`Data` values and backfills `Valor` with one null. -/
theorem c6_load_schema_witness :
    ("Data" ∈ (["Data", "Valor"] : List String)) ∧
    ("Valor" ∈ (["Data", "Valor"] : List String)) ∧
    ("Data" ∈ colNames ([("Data", [some 1]), ("Extra", [some 2])] :
      PTable Nat)) ∧
    ("Valor" ∉ colNames ([("Data", [some 1]), ("Extra", [some 2])] :
      PTable Nat)) ∧
    lookupCol (carregar_csv (CsvFile.ok ([("Data", [some 1]),
      ("Extra", [some 2])] : PTable Nat)) ["Data", "Valor"]).1 "Data" =
      [some 1] ∧
    lookupCol (carregar_csv (CsvFile.ok ([("Data", [some 1]),
      ("Extra", [some 2])] : PTable Nat)) ["Data", "Valor"]).1 "Valor" =
      List.replicate 1 none :=
  ⟨by decide, by decide, by decide, by decide,
   (((c6_load_schema Nat (CsvFile.ok [("Data", [some 1]),
       ("Extra", [some 2])]) ["Data", "Valor"]).2.2.2.2 _ "Data" rfl
       (by decide)).1 (by decide)).trans (by decide),
   ((c6_load_schema Nat (CsvFile.ok [("Data", [some 1]),
       ("Extra", [some 2])]) ["Data", "Valor"]).2.2.2.2 _ "Valor" rfl
       (by decide)).2 (by decide)⟩

end Cotistas
